import Mathlib

/-!
# Verification of the nheko event-accessor layer (`src/EventAccessors.cpp`)

This file gives a shallow embedding of the field-projection accessor layer of
nheko's `EventAccessors.cpp` and proves the spec's claims about it.

The accessor layer itself (the visitors `EventBody`, `EventMsgType`,
`CallType`, ..., and the `mtx::accessors::*` entry points) is translated
directly from the source.  The *variant model* they dispatch over
(`mtx::events::collections::TimelineEvents` and the content shapes) lives in
the mtx library headers, which are not part of the repository excerpt; those
data types are modelled from the spec's data-model section (§3): the closed
catalog of content shapes — text message, media messages {image, video,
audio, file}, call-invite, reaction, name-change, topic-change, and the
verification-request message whose `body`/`msgtype` are optional (the shape
the accessors' optional-member fallback branches exist for).

The C++ `if constexpr (requires ...)` capability probes are resolved at
translation time, per variant, exactly as the C++ compiler resolves them per
concrete content type: a branch is taken for a variant iff the modelled
content shape has the probed member.
-/

namespace Nheko

/-- `mtx::crypto::EncryptedFile`: an opaque descriptor (URL plus encryption
parameters); the accessor layer only ever reads its `url` field. -/
structure EncryptedFile where
  url : String
  key : String
  iv : String
deriving DecidableEq, Repr

/-- `mtx::common::Relations`: the reply/edit/reaction aggregation annotation.
Modelled from the spec: an annotation structure holding relation links; its
internals are opaque to the accessor layer, which only stores and returns it
whole. -/
structure Relations where
  links : List (String × String)
deriving DecidableEq, Repr

/-- The shared static empty instance `EventRelations::empty`. -/
def Relations.empty : Relations := ⟨[]⟩

/-- The `unsigned_data` block carried by every variant. -/
structure UnsignedData where
  transaction_id : String
deriving DecidableEq, Repr

/-- The fields every variant unconditionally carries (spec §3). -/
structure EventCore where
  event_id : String
  room_id : String
  sender : String
  origin_server_ts : Nat
  unsigned_data : UnsignedData
deriving DecidableEq, Repr

/-- `mtx::events::msg::Text` content: body, msgtype, an HTML `format` marker
with `formatted_body`, and relations. Modelled from the spec (§3/§4.1). -/
structure TextContent where
  body : String
  msgtype : String
  format : String
  formatted_body : String
  relations : Relations
deriving DecidableEq, Repr

/-- Image media metadata: dimensions, size, mimetype, blurhash and thumbnail
data (the encrypted-thumbnail descriptor is nested under the info block,
spec §3). Modelled from the spec. -/
structure ImageInfo where
  h : Nat
  w : Nat
  size : Nat
  mimetype : String
  blurhash : String
  thumbnail_url : String
  thumbnail_file : Option EncryptedFile
deriving DecidableEq, Repr

/-- Video media metadata: like `ImageInfo` plus a duration. -/
structure VideoInfo where
  h : Nat
  w : Nat
  size : Nat
  duration : Nat
  mimetype : String
  blurhash : String
  thumbnail_url : String
  thumbnail_file : Option EncryptedFile
deriving DecidableEq, Repr

/-- Audio media metadata: duration, size, mimetype — no dimensions, no
blurhash, no thumbnail. -/
structure AudioInfo where
  duration : Nat
  size : Nat
  mimetype : String
deriving DecidableEq, Repr

/-- Generic-file metadata: size, mimetype, thumbnail data — no dimensions. -/
structure FileInfo where
  size : Nat
  mimetype : String
  thumbnail_url : String
  thumbnail_file : Option EncryptedFile
deriving DecidableEq, Repr

/-- `mtx::events::msg::Image` content. Modelled from the spec. -/
structure ImageContent where
  body : String
  msgtype : String
  url : String
  file : Option EncryptedFile
  info : ImageInfo
  relations : Relations
deriving DecidableEq, Repr

/-- `mtx::events::msg::Video` content. Modelled from the spec. -/
structure VideoContent where
  body : String
  msgtype : String
  url : String
  file : Option EncryptedFile
  info : VideoInfo
  relations : Relations
deriving DecidableEq, Repr

/-- `mtx::events::msg::Audio` content. Modelled from the spec. -/
structure AudioContent where
  body : String
  msgtype : String
  url : String
  file : Option EncryptedFile
  info : AudioInfo
  relations : Relations
deriving DecidableEq, Repr

/-- `mtx::events::msg::File` content: additionally carries an explicit
`filename`. Modelled from the spec. -/
structure FileContent where
  body : String
  msgtype : String
  filename : String
  url : String
  file : Option EncryptedFile
  info : FileInfo
  relations : Relations
deriving DecidableEq, Repr

/-- The in-room verification-request message content: its `body` and
`msgtype` are `std::optional<std::string>`. Modelled from the spec (§4.1(b):
"a message body that is itself optional vs. a plain string"; the claim's
"variant whose content carries an optional msgtype"). -/
structure VerificationRequestContent where
  body : Option String
  msgtype : Option String
deriving DecidableEq, Repr

/-- The SDP offer of a call invite. -/
structure CallOffer where
  sdp : String
deriving DecidableEq, Repr

/-- `mtx::events::voip::CallInvite` content. Modelled from the spec. -/
structure CallInviteContent where
  offer : CallOffer
deriving DecidableEq, Repr

/-- Reaction content: carries only a relations annotation. Modelled from the
spec. -/
structure ReactionContent where
  relations : Relations
deriving DecidableEq, Repr

/-- `mtx::events::state::Name` content. -/
structure NameContent where
  name : String
deriving DecidableEq, Repr

/-- `mtx::events::state::Topic` content. -/
structure TopicContent where
  topic : String
deriving DecidableEq, Repr

/-- `mtx::events::collections::TimelineEvents`: the closed sum type over the
variant catalog (spec §3). `roomName`/`roomTopic` are the two state-event
variants and additionally carry a `state_key`. -/
inductive TimelineEvents where
  | textMsg : EventCore → TextContent → TimelineEvents
  | imageMsg : EventCore → ImageContent → TimelineEvents
  | videoMsg : EventCore → VideoContent → TimelineEvents
  | audioMsg : EventCore → AudioContent → TimelineEvents
  | fileMsg : EventCore → FileContent → TimelineEvents
  | verificationRequest : EventCore → VerificationRequestContent → TimelineEvents
  | callInvite : EventCore → CallInviteContent → TimelineEvents
  | reaction : EventCore → ReactionContent → TimelineEvents
  | roomName : EventCore → String → NameContent → TimelineEvents
  | roomTopic : EventCore → String → TopicContent → TimelineEvents
deriving DecidableEq, Repr

namespace TimelineEvents

/-- The common field block of whichever variant is held. -/
def core : TimelineEvents → EventCore
  | textMsg c _ => c
  | imageMsg c _ => c
  | videoMsg c _ => c
  | audioMsg c _ => c
  | fileMsg c _ => c
  | verificationRequest c _ => c
  | callInvite c _ => c
  | reaction c _ => c
  | roomName c _ _ => c
  | roomTopic c _ _ => c

end TimelineEvents

/-- `mtx::events::MessageType`. Modelled from the spec: the enum the fixed
string→enum table maps into, with an `Unknown` fallback classification. -/
inductive MessageType where
  | Audio | Emote | File | Image | Notice | Text | Video
  | KeyVerificationRequest | Unknown
deriving DecidableEq, Repr

/-- `mtx::events::getMessageType`. Modelled from the spec: a fixed
string→enum table; any unrecognized string maps to `Unknown`. -/
def getMessageType (s : String) : MessageType :=
  if s = "m.audio" then .Audio
  else if s = "m.emote" then .Emote
  else if s = "m.file" then .File
  else if s = "m.image" then .Image
  else if s = "m.notice" then .Notice
  else if s = "m.text" then .Text
  else if s = "m.video" then .Video
  else if s = "m.key.verification.request" then .KeyVerificationRequest
  else .Unknown

namespace accessors

open TimelineEvents

/-- `IsStateEvent`: the `StateEvent` overload returns true, the generic
`Event` overload false; only the Name/Topic variants are state events. -/
def is_state_event : TimelineEvents → Bool
  | roomName _ _ _ => true
  | roomTopic _ _ _ => true
  | _ => false

/-- `EventMsgType`, lines 29-40.  The first `if constexpr` branch fires for
the content shape whose `msgtype` is an optional and reads
`e.content.msgtype.value()` WITHOUT a presence check: when the optional is
absent, `std::optional::value()` throws `std::bad_optional_access`, which we
model as `Except.error ()`.  The second branch fires for plain-string
`msgtype` members, and everything else falls through to `Unknown`. -/
def msg_type : TimelineEvents → Except Unit MessageType
  | textMsg _ c => .ok (getMessageType c.msgtype)
  | imageMsg _ c => .ok (getMessageType c.msgtype)
  | videoMsg _ c => .ok (getMessageType c.msgtype)
  | audioMsg _ c => .ok (getMessageType c.msgtype)
  | fileMsg _ c => .ok (getMessageType c.msgtype)
  | verificationRequest _ c =>
    match c.msgtype with
    | some s => .ok (getMessageType s)
    | none => .error ()
  | callInvite _ _ => .ok .Unknown
  | reaction _ _ => .ok .Unknown
  | roomName _ _ _ => .ok .Unknown
  | roomTopic _ _ _ => .ok .Unknown

/-- `EventRoomName`, lines 42-51: exact-type match on
`StateEvent<state::Name>`. -/
def room_name : TimelineEvents → String
  | roomName _ _ c => c.name
  | _ => ""

/-- `EventRoomTopic`, lines 53-62: exact-type match on
`StateEvent<state::Topic>`. -/
def room_topic : TimelineEvents → String
  | roomTopic _ _ c => c.topic
  | _ => ""

/-- The character comparator of `CallType`'s `std::search` call:
`tolower(c1) == tolower(c2)`.  `Char.toLower` lower-cases exactly the ASCII
range, matching C-locale `std::tolower`. -/
def charEqCI (c1 c2 : Char) : Bool := c1.toLower == c2.toLower

/-- Does `hay` start with `pat`, comparing characters case-insensitively?
(The per-position test `std::search` performs.) -/
def startsWithCI : List Char → List Char → Bool
  | [], _ => true
  | _ :: _, [] => false
  | p :: ps, h :: hs => charEqCI h p && startsWithCI ps hs

/-- `std::search` over `hay` for `pat` under the case-insensitive
comparator, reduced to a Bool (the source only compares the result iterator
against `end`): does `pat` occur case-insensitively anywhere in `hay`? -/
def containsCI (hay pat : List Char) : Bool :=
  match hay with
  | [] => pat.isEmpty
  | _ :: hs => startsWithCI pat hay || containsCI hs pat

/-- `CallType`, lines 64-84: only the call-invite variant is classified;
"video" iff the SDP offer contains "m=video" case-insensitively, else
"voice"; every other variant yields "". -/
def call_type : TimelineEvents → String
  | callInvite _ c =>
    if containsCI c.offer.sdp.data "m=video".data then "video" else "voice"
  | _ => ""

/-- `EventBody`, lines 86-97: the optional-body content shape is unwrapped
with an explicit presence check (`e.content.body ? ... : ""`); plain-string
bodies are returned directly; shapes without a body yield "". -/
def body : TimelineEvents → String
  | textMsg _ c => c.body
  | imageMsg _ c => c.body
  | videoMsg _ c => c.body
  | audioMsg _ c => c.body
  | fileMsg _ c => c.body
  | verificationRequest _ c =>
    match c.body with
    | some b => b
    | none => ""
  | _ => ""

/-- The HTML-format sentinel checked by `EventFormattedBody`. -/
def htmlFormat : String := "org.matrix.custom.html"

/-- `EventFormattedBody`, lines 99-110: only content shapes with a
`formatted_body` member (the text message in the catalog) are probed, and
the value is only honored under the HTML format marker. -/
def formatted_body : TimelineEvents → String
  | textMsg _ c => if c.format = htmlFormat then c.formatted_body else ""
  | _ => ""

/-- `EventFile`, lines 112-121: content shapes with a direct `file` member
(the four media messages) return it; all others return the empty optional. -/
def file : TimelineEvents → Option EncryptedFile
  | imageMsg _ c => c.file
  | videoMsg _ c => c.file
  | audioMsg _ c => c.file
  | fileMsg _ c => c.file
  | _ => none

/-- `EventThumbnailFile`, lines 123-132: the probe
`requires { T::thumbnail_file; }` asks for a member named `thumbnail_file`
on the content type itself, but the descriptor is nested under the `info`
block (spec §3), so the probe fails for every catalog variant and the
projection always returns the empty optional. -/
def thumbnail_file (_e : TimelineEvents) : Option EncryptedFile := none

/-- `EventUrl`, lines 134-146: on shapes with a `url` member, prefer the URL
inside an attached `EncryptedFile` descriptor; otherwise the plaintext
`url`; non-media shapes yield "". -/
def url : TimelineEvents → String
  | imageMsg _ c => match c.file with | some f => f.url | none => c.url
  | videoMsg _ c => match c.file with | some f => f.url | none => c.url
  | audioMsg _ c => match c.file with | some f => f.url | none => c.url
  | fileMsg _ c => match c.file with | some f => f.url | none => c.url
  | _ => ""

/-- `EventThumbnailUrl`, lines 148-160: probes `e.content.info.thumbnail_url`
(present on image/video/file metadata); since `thumbnail_file` is always
empty (see above), the plaintext `info.thumbnail_url` is returned. -/
def thumbnail_url (e : TimelineEvents) : String :=
  match e with
  | imageMsg _ c =>
    match thumbnail_file e with | some f => f.url | none => c.info.thumbnail_url
  | videoMsg _ c =>
    match thumbnail_file e with | some f => f.url | none => c.info.thumbnail_url
  | fileMsg _ c =>
    match thumbnail_file e with | some f => f.url | none => c.info.thumbnail_url
  | _ => ""

/-- `EventDuration`, lines 162-172: probes `e.content.info.duration`
(present on video/audio metadata); default 0. -/
def duration : TimelineEvents → Nat
  | videoMsg _ c => c.info.duration
  | audioMsg _ c => c.info.duration
  | _ => 0

/-- `EventBlurhash`, lines 174-184: probes `e.content.info.blurhash`
(present on image/video metadata); default "". -/
def blurhash : TimelineEvents → String
  | imageMsg _ c => c.info.blurhash
  | videoMsg _ c => c.info.blurhash
  | _ => ""

/-- `EventFilename`, lines 186-215: bespoke per-variant overloads — the file
message prefers its explicit `filename` when non-empty and falls back to
`body`; audio/video/image reuse `body`; everything else falls through to the
generic overload returning "". -/
def filename : TimelineEvents → String
  | audioMsg _ c => c.body
  | videoMsg _ c => c.body
  | imageMsg _ c => c.body
  | fileMsg _ c => if ¬c.filename.isEmpty then c.filename else c.body
  | _ => ""

/-- `EventMimeType`, lines 217-227: probes `e.content.info.mimetype`
(present on all four media metadata blocks); default "". -/
def mimetype : TimelineEvents → String
  | imageMsg _ c => c.info.mimetype
  | videoMsg _ c => c.info.mimetype
  | audioMsg _ c => c.info.mimetype
  | fileMsg _ c => c.info.mimetype
  | _ => ""

/-- Conversion of a `uint64_t` value to the `int64_t` return type of
`filesize` (modular, as C++20 defines it). -/
def toInt64 (n : Nat) : Int :=
  if n % 2 ^ 64 < 2 ^ 63 then (n % 2 ^ 64 : Int) else (n % 2 ^ 64 : Int) - 2 ^ 64

/-- `EventFilesize`, lines 229-239: probes `e.content.info.size` (present on
all four media metadata blocks); default 0. -/
def filesize : TimelineEvents → Int
  | imageMsg _ c => toInt64 c.info.size
  | videoMsg _ c => toInt64 c.info.size
  | audioMsg _ c => toInt64 c.info.size
  | fileMsg _ c => toInt64 c.info.size
  | _ => 0

/-- `EventRelations`, lines 241-253: shapes with a `relations` member return
it; all others return the shared empty instance. -/
def relations : TimelineEvents → Relations
  | textMsg _ c => c.relations
  | imageMsg _ c => c.relations
  | videoMsg _ c => c.relations
  | audioMsg _ c => c.relations
  | fileMsg _ c => c.relations
  | reaction _ c => c.relations
  | _ => Relations.empty

/-- `SetEventRelations` / `mtx::accessors::set_relations`, lines 255-265 and
438-443: replace the relations annotation on shapes that support it, leave
every other variant untouched. -/
def set_relations (e : TimelineEvents) (r : Relations) : TimelineEvents :=
  match e with
  | textMsg core c => textMsg core { c with relations := r }
  | imageMsg core c => imageMsg core { c with relations := r }
  | videoMsg core c => videoMsg core { c with relations := r }
  | audioMsg core c => audioMsg core { c with relations := r }
  | fileMsg core c => fileMsg core { c with relations := r }
  | reaction core c => reaction core { c with relations := r }
  | other => other

/-- `EventTransactionId`, lines 267-279: read uniformly from the
`unsigned_data` block. -/
def transaction_id (e : TimelineEvents) : String :=
  e.core.unsigned_data.transaction_id

/-- `uint64_t(-1)`: the "unknown dimension" sentinel `return -1;` converts
to over the unsigned 64-bit return type. -/
def unknownDimension : Nat := 2 ^ 64 - 1

/-- `EventMediaHeight`, lines 281-291: probes `e.content.info.h` (present on
image/video metadata); default `uint64_t(-1)`. -/
def media_height : TimelineEvents → Nat
  | imageMsg _ c => c.info.h
  | videoMsg _ c => c.info.h
  | _ => unknownDimension

/-- `EventMediaWidth`, lines 293-303: the probe is `e.content.info.h` — the
HEIGHT member, copied verbatim from `EventMediaHeight` — so the branch
returning `info.w` fires exactly for the variants whose metadata has an `h`
member; default `uint64_t(-1)`. -/
def media_width : TimelineEvents → Nat
  | imageMsg _ c => c.info.w
  | videoMsg _ c => c.info.w
  | _ => unknownDimension

/-- `eventPropHeight`, lines 305-316, with the fetched height and width
abstracted as arguments (`eventWidth`/`eventHeight` are declared in the
header, outside the excerpt): guard a zero width to 1, divide, and replace a
non-positive ratio by 1.  The `double` division of two `uint64_t` values is
modelled over `ℚ`. -/
def eventPropHeight (h w : Nat) : ℚ :=
  let w2 : Nat := if w = 0 then 1 else w
  let prop : ℚ := (h : ℚ) / (w2 : ℚ)
  if 0 < prop then prop else 1

/-- `mtx::accessors::event_id`, lines 319-323. -/
def event_id (e : TimelineEvents) : String := e.core.event_id

/-- `mtx::accessors::room_id`, lines 324-328. -/
def room_id (e : TimelineEvents) : String := e.core.room_id

/-- `mtx::accessors::sender`, lines 330-334. -/
def sender (e : TimelineEvents) : String := e.core.sender

/-- Qt's `QString::toHtmlEscaped` on one character: `<`, `>`, `&`, `"` are
replaced by their HTML entities. Modelled from the spec ("HTML special
characters escaped"; Qt is an external collaborator). -/
def htmlEscapeChar (c : Char) : String :=
  if c = '<' then "&lt;"
  else if c = '>' then "&gt;"
  else if c = '&' then "&amp;"
  else if c = '"' then "&quot;"
  else String.singleton c

/-- `QString::toHtmlEscaped`, applied character-wise. -/
def toHtmlEscaped (s : String) : String :=
  String.join (s.data.map htmlEscapeChar)

/-- `QString::replace("\n", "<br>")`: the pattern is a single character, so
the replacement is character-wise. -/
def replaceNewlines (s : String) : String :=
  String.join (s.data.map fun c => if c = '\n' then "<br>" else String.singleton c)

/-- `mtx::accessors::formattedBodyWithFallback`, lines 383-393: the
formatted body when non-empty, else the plain body HTML-escaped with
newlines turned into `<br>`. -/
def formattedBodyWithFallback (e : TimelineEvents) : String :=
  let formatted := formatted_body e
  if ¬formatted.isEmpty then formatted
  else replaceNewlines (toHtmlEscaped (body e))

end accessors

/-- The structured, self-describing value `serialize_event` produces
(`nlohmann::json`). -/
inductive Json where
  | str : String → Json
  | nat : Nat → Json
  | null : Json
  | arr : List Json → Json
  | obj : List (String × Json) → Json

namespace accessors

open TimelineEvents

/-- JSON form of a relations annotation. Modelled from the spec: the
converters for the content types live upstream; each link becomes a small
object. -/
def relationsToJson (r : Relations) : Json :=
  .arr (r.links.map fun l => .obj [("rel_type", .str l.1), ("event_id", .str l.2)])

/-- Inverse of the per-link encoding in `relationsToJson`. -/
def decodeRelLinks : List Json → Option (List (String × String))
  | [] => some []
  | .obj [("rel_type", .str a), ("event_id", .str b)] :: rest =>
    (decodeRelLinks rest).map fun l => (a, b) :: l
  | _ => none

/-- Inverse of `relationsToJson`. -/
def decodeRelations : Json → Option Relations
  | .arr l => (decodeRelLinks l).map Relations.mk
  | _ => none

/-- JSON form of an optional `EncryptedFile` descriptor. -/
def optFileToJson : Option EncryptedFile → Json
  | some f => .obj [("url", .str f.url), ("key", .str f.key), ("iv", .str f.iv)]
  | none => .null

/-- Inverse of `optFileToJson`. -/
def decodeOptFile : Json → Option (Option EncryptedFile)
  | .null => some none
  | .obj [("url", .str u), ("key", .str k), ("iv", .str i)] => some (some ⟨u, k, i⟩)
  | _ => none

/-- JSON form of an optional string. -/
def optStrToJson : Option String → Json
  | some s => .str s
  | none => .null

/-- Inverse of `optStrToJson`. -/
def decodeOptStr : Json → Option (Option String)
  | .null => some none
  | .str s => some (some s)
  | _ => none

/-- JSON form of the common field block. -/
def coreToJson (c : EventCore) : List (String × Json) :=
  [("event_id", .str c.event_id), ("room_id", .str c.room_id),
   ("sender", .str c.sender), ("origin_server_ts", .nat c.origin_server_ts),
   ("unsigned", .obj [("transaction_id", .str c.unsigned_data.transaction_id)])]

/-- JSON form of each variant's content payload. -/
def contentToJson : TimelineEvents → Json
  | textMsg _ c =>
    .obj [("msgtype", .str c.msgtype), ("body", .str c.body),
          ("format", .str c.format), ("formatted_body", .str c.formatted_body),
          ("im.nheko.relations.v1.relations", relationsToJson c.relations)]
  | imageMsg _ c =>
    .obj [("msgtype", .str c.msgtype), ("body", .str c.body), ("url", .str c.url),
          ("file", optFileToJson c.file),
          ("info", .obj [("h", .nat c.info.h), ("w", .nat c.info.w),
                         ("size", .nat c.info.size), ("mimetype", .str c.info.mimetype),
                         ("xyz.amorgan.blurhash", .str c.info.blurhash),
                         ("thumbnail_url", .str c.info.thumbnail_url),
                         ("thumbnail_file", optFileToJson c.info.thumbnail_file)]),
          ("im.nheko.relations.v1.relations", relationsToJson c.relations)]
  | videoMsg _ c =>
    .obj [("msgtype", .str c.msgtype), ("body", .str c.body), ("url", .str c.url),
          ("file", optFileToJson c.file),
          ("info", .obj [("h", .nat c.info.h), ("w", .nat c.info.w),
                         ("size", .nat c.info.size), ("duration", .nat c.info.duration),
                         ("mimetype", .str c.info.mimetype),
                         ("xyz.amorgan.blurhash", .str c.info.blurhash),
                         ("thumbnail_url", .str c.info.thumbnail_url),
                         ("thumbnail_file", optFileToJson c.info.thumbnail_file)]),
          ("im.nheko.relations.v1.relations", relationsToJson c.relations)]
  | audioMsg _ c =>
    .obj [("msgtype", .str c.msgtype), ("body", .str c.body), ("url", .str c.url),
          ("file", optFileToJson c.file),
          ("info", .obj [("duration", .nat c.info.duration), ("size", .nat c.info.size),
                         ("mimetype", .str c.info.mimetype)]),
          ("im.nheko.relations.v1.relations", relationsToJson c.relations)]
  | fileMsg _ c =>
    .obj [("msgtype", .str c.msgtype), ("body", .str c.body),
          ("filename", .str c.filename), ("url", .str c.url),
          ("file", optFileToJson c.file),
          ("info", .obj [("size", .nat c.info.size), ("mimetype", .str c.info.mimetype),
                         ("thumbnail_url", .str c.info.thumbnail_url),
                         ("thumbnail_file", optFileToJson c.info.thumbnail_file)]),
          ("im.nheko.relations.v1.relations", relationsToJson c.relations)]
  | verificationRequest _ c =>
    .obj [("msgtype", optStrToJson c.msgtype), ("body", optStrToJson c.body)]
  | callInvite _ c =>
    .obj [("offer", .obj [("sdp", .str c.offer.sdp)])]
  | reaction _ c =>
    .obj [("im.nheko.relations.v1.relations", relationsToJson c.relations)]
  | roomName _ _ c => .obj [("name", .str c.name)]
  | roomTopic _ _ c => .obj [("topic", .str c.topic)]

/-- The discriminant/type tag each variant serializes under. -/
def typeTag : TimelineEvents → String
  | textMsg _ _ => "m.room.message.text"
  | imageMsg _ _ => "m.room.message.image"
  | videoMsg _ _ => "m.room.message.video"
  | audioMsg _ _ => "m.room.message.audio"
  | fileMsg _ _ => "m.room.message.file"
  | verificationRequest _ _ => "m.room.message.key.verification.request"
  | callInvite _ _ => "m.call.invite"
  | reaction _ _ => "m.reaction"
  | roomName _ _ _ => "m.room.name"
  | roomTopic _ _ _ => "m.room.topic"

/-- `mtx::accessors::serialize_event`, lines 469-473: re-encode whichever
variant is held into the structured, self-describing generic form.  The
per-variant `nlohmann::json` converters live in the mtx library; their
field layout is modelled from the spec (§4.3: the output's shape captures
the discriminant; exact field names are the decode step's contract). -/
def serialize_event (e : TimelineEvents) : Json :=
  match e with
  | roomName c sk _ =>
    .obj (("type", .str (typeTag e)) :: coreToJson c ++
          [("state_key", .str sk), ("content", contentToJson e)])
  | roomTopic c sk _ =>
    .obj (("type", .str (typeTag e)) :: coreToJson c ++
          [("state_key", .str sk), ("content", contentToJson e)])
  | _ =>
    .obj (("type", .str (typeTag e)) :: coreToJson e.core ++
          [("content", contentToJson e)])

/-- Modelled from the spec: the upstream decode step this core's output must
be the structural inverse of (§4.3, §6).  Reads the discriminant tag and the
common field block, then rebuilds the variant's content from the serialized
shape; any shape mismatch is a decode failure. -/
def decodeContent (t : String) (core : EventCore) (j : Json) : Option TimelineEvents :=
  if t = "m.room.message.text" then
    match j with
    | .obj [("msgtype", .str mt), ("body", .str b), ("format", .str f),
            ("formatted_body", .str fb), ("im.nheko.relations.v1.relations", rj)] =>
      (decodeRelations rj).map fun r => textMsg core ⟨b, mt, f, fb, r⟩
    | _ => none
  else if t = "m.room.message.image" then
    match j with
    | .obj [("msgtype", .str mt), ("body", .str b), ("url", .str u), ("file", fj),
            ("info", .obj [("h", .nat h), ("w", .nat w), ("size", .nat sz),
                           ("mimetype", .str mi), ("xyz.amorgan.blurhash", .str bh),
                           ("thumbnail_url", .str tu), ("thumbnail_file", tfj)]),
            ("im.nheko.relations.v1.relations", rj)] =>
      (decodeOptFile fj).bind fun fl =>
        (decodeOptFile tfj).bind fun tf =>
          (decodeRelations rj).map fun r =>
            imageMsg core ⟨b, mt, u, fl, ⟨h, w, sz, mi, bh, tu, tf⟩, r⟩
    | _ => none
  else if t = "m.room.message.video" then
    match j with
    | .obj [("msgtype", .str mt), ("body", .str b), ("url", .str u), ("file", fj),
            ("info", .obj [("h", .nat h), ("w", .nat w), ("size", .nat sz),
                           ("duration", .nat du), ("mimetype", .str mi),
                           ("xyz.amorgan.blurhash", .str bh),
                           ("thumbnail_url", .str tu), ("thumbnail_file", tfj)]),
            ("im.nheko.relations.v1.relations", rj)] =>
      (decodeOptFile fj).bind fun fl =>
        (decodeOptFile tfj).bind fun tf =>
          (decodeRelations rj).map fun r =>
            videoMsg core ⟨b, mt, u, fl, ⟨h, w, sz, du, mi, bh, tu, tf⟩, r⟩
    | _ => none
  else if t = "m.room.message.audio" then
    match j with
    | .obj [("msgtype", .str mt), ("body", .str b), ("url", .str u), ("file", fj),
            ("info", .obj [("duration", .nat du), ("size", .nat sz),
                           ("mimetype", .str mi)]),
            ("im.nheko.relations.v1.relations", rj)] =>
      (decodeOptFile fj).bind fun fl =>
        (decodeRelations rj).map fun r =>
          audioMsg core ⟨b, mt, u, fl, ⟨du, sz, mi⟩, r⟩
    | _ => none
  else if t = "m.room.message.file" then
    match j with
    | .obj [("msgtype", .str mt), ("body", .str b), ("filename", .str fn),
            ("url", .str u), ("file", fj),
            ("info", .obj [("size", .nat sz), ("mimetype", .str mi),
                           ("thumbnail_url", .str tu), ("thumbnail_file", tfj)]),
            ("im.nheko.relations.v1.relations", rj)] =>
      (decodeOptFile fj).bind fun fl =>
        (decodeOptFile tfj).bind fun tf =>
          (decodeRelations rj).map fun r =>
            fileMsg core ⟨b, mt, fn, u, fl, ⟨sz, mi, tu, tf⟩, r⟩
    | _ => none
  else if t = "m.room.message.key.verification.request" then
    match j with
    | .obj [("msgtype", mtj), ("body", bj)] =>
      (decodeOptStr mtj).bind fun mt =>
        (decodeOptStr bj).map fun b =>
          verificationRequest core ⟨b, mt⟩
    | _ => none
  else if t = "m.call.invite" then
    match j with
    | .obj [("offer", .obj [("sdp", .str s)])] =>
      some (callInvite core ⟨⟨s⟩⟩)
    | _ => none
  else if t = "m.reaction" then
    match j with
    | .obj [("im.nheko.relations.v1.relations", rj)] =>
      (decodeRelations rj).map fun r => reaction core ⟨r⟩
    | _ => none
  else none

/-- Modelled from the spec: the upstream decode step, outer layer — matches
the envelope `serialize_event` emits (timeline shape, or state shape with a
`state_key`) and dispatches on the discriminant tag. -/
def decode : Json → Option TimelineEvents
  | .obj [("type", .str t), ("event_id", .str eid), ("room_id", .str rid),
          ("sender", .str snd), ("origin_server_ts", .nat ts),
          ("unsigned", .obj [("transaction_id", .str txn)]),
          ("content", cj)] =>
    decodeContent t ⟨eid, rid, snd, ts, ⟨txn⟩⟩ cj
  | .obj [("type", .str t), ("event_id", .str eid), ("room_id", .str rid),
          ("sender", .str snd), ("origin_server_ts", .nat ts),
          ("unsigned", .obj [("transaction_id", .str txn)]),
          ("state_key", .str sk), ("content", cj)] =>
    match cj with
    | .obj [("name", .str n)] =>
      if t = "m.room.name" then
        some (roomName ⟨eid, rid, snd, ts, ⟨txn⟩⟩ sk ⟨n⟩)
      else none
    | .obj [("topic", .str tp)] =>
      if t = "m.room.topic" then
        some (roomTopic ⟨eid, rid, snd, ts, ⟨txn⟩⟩ sk ⟨tp⟩)
      else none
    | _ => none
  | _ => none

/-- "The SDP offer contains the substring `pat` under case-insensitive
comparison", stated abstractly: after ASCII lower-casing both strings, the
pattern occurs contiguously in the haystack. -/
def hasSubstrCI (hay pat : String) : Prop :=
  ∃ pre post, hay.data.map Char.toLower = pre ++ pat.data.map Char.toLower ++ post

/-- Is the held variant the call-invite? (the exact-type condition of
`CallType`'s `if constexpr`). -/
def isCallInviteEvent : TimelineEvents → Bool
  | .callInvite _ _ => true
  | _ => false

/-- Does the held variant's content have media info with an `h` (height)
member? — the existence-probe `requires { e.content.info.h; }` used by BOTH
`EventMediaHeight` and `EventMediaWidth`. -/
def hasInfoH : TimelineEvents → Bool
  | .imageMsg _ _ => true
  | .videoMsg _ _ => true
  | _ => false

/-- The width stored in the held variant's media info (0 where none). -/
def infoW : TimelineEvents → Nat
  | .imageMsg _ c => c.info.w
  | .videoMsg _ c => c.info.w
  | _ => 0

/-- The height stored in the held variant's media info (0 where none). -/
def infoH : TimelineEvents → Nat
  | .imageMsg _ c => c.info.h
  | .videoMsg _ c => c.info.h
  | _ => 0

/-- Does the held variant's content carry a media-info block at all? -/
def hasMediaInfo : TimelineEvents → Bool
  | .imageMsg _ _ => true
  | .videoMsg _ _ => true
  | .audioMsg _ _ => true
  | .fileMsg _ _ => true
  | _ => false

/-- Does the held variant's content shape support a relations annotation?
(the `requires { T::relations; }` probe of `EventRelations` and
`SetEventRelations`). -/
def supportsRelations : TimelineEvents → Bool
  | .textMsg _ _ => true
  | .imageMsg _ _ => true
  | .videoMsg _ _ => true
  | .audioMsg _ _ => true
  | .fileMsg _ _ => true
  | .reaction _ _ => true
  | _ => false

/-- Does the held variant's content have a `formatted_body` member? (the
`requires { T::formatted_body; }` probe of `EventFormattedBody`). -/
def hasFormattedBody : TimelineEvents → Bool
  | .textMsg _ _ => true
  | _ => false

/-- Is the held variant one of the four message shapes `EventFilename`
treats bespokely (audio/video/image/file)? -/
def hasBespokeFilename : TimelineEvents → Bool
  | .audioMsg _ _ => true
  | .videoMsg _ _ => true
  | .imageMsg _ _ => true
  | .fileMsg _ _ => true
  | _ => false

/-- A sample common field block for concrete instantiations. -/
def core0 : EventCore :=
  ⟨"$evt0", "!room0:example.org", "@alice:example.org", 1700000000000, ⟨"txn0"⟩⟩

/-- Decoding inverts the per-link relations encoding. -/
theorem decodeRelLinks_map (l : List (String × String)) :
    decodeRelLinks (l.map fun p =>
      Json.obj [("rel_type", .str p.1), ("event_id", .str p.2)]) = some l := by
  induction l with
  | nil => rfl
  | cons a l ih => simp [decodeRelLinks, ih]

/-- Decoding inverts `relationsToJson`. -/
theorem decodeRelations_toJson (r : Relations) :
    decodeRelations (relationsToJson r) = some r := by
  simp [decodeRelations, relationsToJson, decodeRelLinks_map]

/-- Decoding inverts `optFileToJson`. -/
theorem decodeOptFile_toJson (o : Option EncryptedFile) :
    decodeOptFile (optFileToJson o) = some o := by
  cases o <;> rfl

/-- Decoding inverts `optStrToJson`. -/
theorem decodeOptStr_toJson (o : Option String) :
    decodeOptStr (optStrToJson o) = some o := by
  cases o <;> rfl

/-- The modelled upstream decode step is a structural inverse of
`serialize_event` on the whole variant catalog. -/
theorem decode_serialize (e : TimelineEvents) :
    decode (serialize_event e) = some e := by
  cases e with
  | textMsg c tc =>
    rw [show decode (serialize_event (textMsg c tc)) =
          (decodeRelations (relationsToJson tc.relations)).map
            (fun r => textMsg c ⟨tc.body, tc.msgtype, tc.format, tc.formatted_body, r⟩)
        from rfl]
    rw [decodeRelations_toJson]; rfl
  | imageMsg c tc =>
    rw [show decode (serialize_event (imageMsg c tc)) =
          ((decodeOptFile (optFileToJson tc.file)).bind fun fl =>
            (decodeOptFile (optFileToJson tc.info.thumbnail_file)).bind fun tf =>
              (decodeRelations (relationsToJson tc.relations)).map fun r =>
                imageMsg c ⟨tc.body, tc.msgtype, tc.url, fl,
                  ⟨tc.info.h, tc.info.w, tc.info.size, tc.info.mimetype,
                   tc.info.blurhash, tc.info.thumbnail_url, tf⟩, r⟩)
        from rfl]
    simp only [decodeOptFile_toJson, decodeRelations_toJson, Option.some_bind,
               Option.map_some']
  | videoMsg c tc =>
    rw [show decode (serialize_event (videoMsg c tc)) =
          ((decodeOptFile (optFileToJson tc.file)).bind fun fl =>
            (decodeOptFile (optFileToJson tc.info.thumbnail_file)).bind fun tf =>
              (decodeRelations (relationsToJson tc.relations)).map fun r =>
                videoMsg c ⟨tc.body, tc.msgtype, tc.url, fl,
                  ⟨tc.info.h, tc.info.w, tc.info.size, tc.info.duration,
                   tc.info.mimetype, tc.info.blurhash, tc.info.thumbnail_url, tf⟩, r⟩)
        from rfl]
    simp only [decodeOptFile_toJson, decodeRelations_toJson, Option.some_bind,
               Option.map_some']
  | audioMsg c tc =>
    rw [show decode (serialize_event (audioMsg c tc)) =
          ((decodeOptFile (optFileToJson tc.file)).bind fun fl =>
            (decodeRelations (relationsToJson tc.relations)).map fun r =>
              audioMsg c ⟨tc.body, tc.msgtype, tc.url, fl,
                ⟨tc.info.duration, tc.info.size, tc.info.mimetype⟩, r⟩)
        from rfl]
    simp only [decodeOptFile_toJson, decodeRelations_toJson, Option.some_bind,
               Option.map_some']
  | fileMsg c tc =>
    rw [show decode (serialize_event (fileMsg c tc)) =
          ((decodeOptFile (optFileToJson tc.file)).bind fun fl =>
            (decodeOptFile (optFileToJson tc.info.thumbnail_file)).bind fun tf =>
              (decodeRelations (relationsToJson tc.relations)).map fun r =>
                fileMsg c ⟨tc.body, tc.msgtype, tc.filename, tc.url, fl,
                  ⟨tc.info.size, tc.info.mimetype, tc.info.thumbnail_url, tf⟩, r⟩)
        from rfl]
    simp only [decodeOptFile_toJson, decodeRelations_toJson, Option.some_bind,
               Option.map_some']
  | verificationRequest c tc =>
    rw [show decode (serialize_event (verificationRequest c tc)) =
          ((decodeOptStr (optStrToJson tc.msgtype)).bind fun mt =>
            (decodeOptStr (optStrToJson tc.body)).map fun b =>
              verificationRequest c ⟨b, mt⟩)
        from rfl]
    simp only [decodeOptStr_toJson, Option.some_bind, Option.map_some']
  | callInvite c cc => rfl
  | reaction c rc =>
    rw [show decode (serialize_event (reaction c rc)) =
          (decodeRelations (relationsToJson rc.relations)).map
            (fun r => reaction c ⟨r⟩)
        from rfl]
    rw [decodeRelations_toJson]; rfl
  | roomName c sk nc => rfl
  | roomTopic c sk pc => rfl

/-- The per-position test of the case-insensitive `std::search` agrees with
"the lower-cased haystack starts with the lower-cased pattern". -/
theorem startsWithCI_iff (pat hay : List Char) :
    startsWithCI pat hay = true ↔
      ∃ rest, hay.map Char.toLower = pat.map Char.toLower ++ rest := by
  induction pat generalizing hay with
  | nil => simp [startsWithCI]
  | cons p ps ih =>
    cases hay with
    | nil => simp [startsWithCI]
    | cons h hs =>
      simp only [startsWithCI, Bool.and_eq_true, charEqCI, beq_iff_eq, ih,
        List.map_cons, List.cons_append, List.cons.injEq]
      constructor
      · rintro ⟨h1, rest, h2⟩
        exact ⟨rest, h1, h2⟩
      · rintro ⟨rest, h1, h2⟩
        exact ⟨h1, rest, h2⟩

/-- The Bool-valued `std::search`-as-containment agrees with the abstract
case-insensitive substring occurrence. -/
theorem containsCI_iff (hay pat : List Char) :
    containsCI hay pat = true ↔
      ∃ pre post, hay.map Char.toLower = pre ++ pat.map Char.toLower ++ post := by
  induction hay with
  | nil =>
    simp only [containsCI, List.isEmpty_iff, List.map_nil]
    constructor
    · rintro rfl
      exact ⟨[], [], rfl⟩
    · rintro ⟨pre, post, h⟩
      rcases List.append_eq_nil.mp h.symm with ⟨h1, -⟩
      rcases List.append_eq_nil.mp h1 with ⟨-, h3⟩
      exact List.map_eq_nil_iff.mp h3
  | cons h hs ih =>
    simp only [containsCI, Bool.or_eq_true, startsWithCI_iff, ih, List.map_cons]
    constructor
    · rintro (⟨rest, hr⟩ | ⟨pre, post, hr⟩)
      · exact ⟨[], rest, by simp [hr]⟩
      · exact ⟨h.toLower :: pre, post, by simp [hr]⟩
    · rintro ⟨pre, post, hr⟩
      cases pre with
      | nil => exact Or.inl ⟨post, by simpa using hr⟩
      | cons x pre2 =>
        rcases List.cons.injEq .. ▸ hr with ⟨-, h2⟩
        exact Or.inr ⟨pre2, post, h2⟩

/-- C1: the spec requires every projection in the accessor catalog to be
total — in particular `msg_type` on a variant whose content carries an
optional `msgtype` that is absent must return the `Unknown` classification.
The code instead reads `e.content.msgtype.value()` without a presence check
(line 35), which faults (`std::bad_optional_access`, modelled as
`Except.error ()`) on the absent optional, while classifying normally when
the optional is present.  The code, not the claim, is at fault. -/
theorem msg_type_faults_on_absent_optional_msgtype :
    msg_type (.verificationRequest core0 ⟨none, none⟩) = .error () ∧
    msg_type (.verificationRequest core0
        ⟨none, some "m.key.verification.request"⟩) = .ok .KeyVerificationRequest ∧
    msg_type (.textMsg core0 ⟨"hi", "m.text", "", "", Relations.empty⟩) = .ok .Text :=
  ⟨rfl, rfl, rfl⟩

/-- C2: `EventMediaWidth`'s existence-probe tests `info.h` — the height
member (line 298): for every variant, `media_width` returns the stored width
exactly when the variant's info has a height member, which is the same
condition under which `media_height` returns the stored height; both return
the unknown sentinel otherwise. -/
theorem media_width_probes_height_member (e : TimelineEvents) :
    (hasInfoH e = true → media_width e = infoW e ∧ media_height e = infoH e) ∧
    (hasInfoH e = false →
      media_width e = unknownDimension ∧ media_height e = unknownDimension) := by
  cases e <;> simp [hasInfoH, media_width, media_height, infoW, infoH]

/-- Witness for C2 at an image message (probe succeeds: width 640 returned)
and a text message (probe fails: sentinel returned). -/
theorem media_width_probes_height_member_witness :
    media_width (.imageMsg core0 ⟨"p.png", "m.image", "mxc://u", none,
        ⟨480, 640, 1000, "image/png", "LEHV6", "mxc://t", none⟩,
        Relations.empty⟩) = 640 ∧
    media_width (.textMsg core0 ⟨"hi", "m.text", "", "", Relations.empty⟩)
      = 2 ^ 64 - 1 :=
  ⟨(((media_width_probes_height_member (.imageMsg core0 ⟨"p.png", "m.image",
        "mxc://u", none, ⟨480, 640, 1000, "image/png", "LEHV6", "mxc://t", none⟩,
        Relations.empty⟩)).1 rfl).1).trans rfl,
   (((media_width_probes_height_member (.textMsg core0 ⟨"hi", "m.text", "", "",
        Relations.empty⟩)).2 rfl).1).trans rfl⟩

/-- C3: on every variant whose content carries no media info, both
`media_height` and `media_width` return the `-1`-as-`uint64_t` sentinel
`2^64 - 1`, which is distinguishable from an explicit height or width
of 0. -/
theorem media_dimensions_default_sentinel (e : TimelineEvents)
    (h : hasMediaInfo e = false) :
    media_height e = 2 ^ 64 - 1 ∧ media_width e = 2 ^ 64 - 1 ∧
    media_height e ≠ 0 ∧ media_width e ≠ 0 := by
  cases e <;> first
    | exact ⟨rfl, rfl, (by norm_num : (2:ℕ) ^ 64 - 1 ≠ 0),
        (by norm_num : (2:ℕ) ^ 64 - 1 ≠ 0)⟩
    | simp [hasMediaInfo] at h

/-- Witness for C3 at a reaction event. -/
theorem media_dimensions_default_sentinel_witness :
    media_height (.reaction core0 ⟨Relations.empty⟩) = 2 ^ 64 - 1 ∧
    media_width (.reaction core0 ⟨Relations.empty⟩) = 2 ^ 64 - 1 ∧
    media_height (.reaction core0 ⟨Relations.empty⟩) ≠ 0 ∧
    media_width (.reaction core0 ⟨Relations.empty⟩) ≠ 0 :=
  media_dimensions_default_sentinel _ rfl

/-- C4: `call_type` classifies a call invite as "video" exactly when its
SDP offer contains "m=video" under case-insensitive comparison, as "voice"
otherwise (including an empty offer), and returns "" on every non-call
variant. -/
theorem call_type_video_voice_classification :
    (∀ (c : EventCore) (offer : CallOffer), hasSubstrCI offer.sdp "m=video" →
        call_type (.callInvite c ⟨offer⟩) = "video") ∧
    (∀ (c : EventCore) (offer : CallOffer), ¬ hasSubstrCI offer.sdp "m=video" →
        call_type (.callInvite c ⟨offer⟩) = "voice") ∧
    (∀ e, isCallInviteEvent e = false → call_type e = "") := by
  refine ⟨?_, ?_, ?_⟩
  · intro c offer h
    have hc : containsCI offer.sdp.data "m=video".data = true :=
      (containsCI_iff _ _).mpr h
    simp [call_type, hc]
  · intro c offer h
    have hc : ¬ containsCI offer.sdp.data "m=video".data = true :=
      fun hx => h ((containsCI_iff _ _).mp hx)
    simp [call_type, hc]
  · intro e he
    cases e <;> simp_all [call_type, isCallInviteEvent]

/-- Witness for C4: a mixed-case "M=VIDEO" marker classifies as video, an
empty offer as voice, and a text message yields "". -/
theorem call_type_video_voice_classification_witness :
    call_type (.callInvite core0 ⟨⟨"v=0 M=VIDEO 9 UDP/TLS"⟩⟩) = "video" ∧
    call_type (.callInvite core0 ⟨⟨""⟩⟩) = "voice" ∧
    call_type (.textMsg core0 ⟨"hi", "m.text", "", "", Relations.empty⟩) = "" :=
  ⟨call_type_video_voice_classification.1 core0 ⟨"v=0 M=VIDEO 9 UDP/TLS"⟩
      ⟨"v=0 ".data, " 9 udp/tls".data, by decide⟩,
   call_type_video_voice_classification.2.1 core0 ⟨""⟩
      (fun h => absurd ((containsCI_iff "".data "m=video".data).mpr h) (by decide)),
   call_type_video_voice_classification.2.2 _ rfl⟩

/-- C5: `filename` prefers the file message's explicit filename when
non-empty and falls back to its body; audio/video/image messages always
reuse the body; every other variant yields "". -/
theorem filename_per_variant_override :
    (∀ (c : EventCore) (fc : FileContent), fc.filename ≠ "" →
        filename (.fileMsg c fc) = fc.filename) ∧
    (∀ (c : EventCore) (fc : FileContent), fc.filename = "" →
        filename (.fileMsg c fc) = fc.body) ∧
    (∀ (c : EventCore) (ac : AudioContent), filename (.audioMsg c ac) = ac.body) ∧
    (∀ (c : EventCore) (vc : VideoContent), filename (.videoMsg c vc) = vc.body) ∧
    (∀ (c : EventCore) (ic : ImageContent), filename (.imageMsg c ic) = ic.body) ∧
    (∀ e, hasBespokeFilename e = false → filename e = "") := by
  refine ⟨?_, ?_, fun _ _ => rfl, fun _ _ => rfl, fun _ _ => rfl, ?_⟩
  · intro c fc h
    simp [filename, String.isEmpty_iff, h]
  · intro c fc h
    simp [filename, String.isEmpty_iff, h]
  · intro e he
    cases e <;> simp_all [filename, hasBespokeFilename]

/-- Witness for C5: the spec's override chain — empty explicit filename with
body "doc.pdf" gives "doc.pdf", explicit "real.pdf" with body "x" gives
"real.pdf"; an audio message reuses its body; a reaction yields "". -/
theorem filename_per_variant_override_witness :
    filename (.fileMsg core0 ⟨"doc.pdf", "m.file", "", "mxc://u", none,
        ⟨9, "application/pdf", "", none⟩, Relations.empty⟩) = "doc.pdf" ∧
    filename (.fileMsg core0 ⟨"x", "m.file", "real.pdf", "mxc://u", none,
        ⟨9, "application/pdf", "", none⟩, Relations.empty⟩) = "real.pdf" ∧
    filename (.audioMsg core0 ⟨"song.mp3", "m.audio", "mxc://u", none,
        ⟨120, 9, "audio/mpeg"⟩, Relations.empty⟩) = "song.mp3" ∧
    filename (.reaction core0 ⟨Relations.empty⟩) = "" :=
  ⟨filename_per_variant_override.2.1 core0 _ rfl,
   filename_per_variant_override.1 core0 _ (by decide),
   filename_per_variant_override.2.2.1 core0 _,
   filename_per_variant_override.2.2.2.2.2 _ rfl⟩

/-- C6: `formatted_body` returns the content's formatted body exactly when
the content has a `formatted_body` member and the format marker equals the
HTML sentinel "org.matrix.custom.html", unmodified; in every other case it
returns "". -/
theorem formatted_body_html_sentinel :
    (∀ (c : EventCore) (tc : TextContent), tc.format = "org.matrix.custom.html" →
        formatted_body (.textMsg c tc) = tc.formatted_body) ∧
    (∀ (c : EventCore) (tc : TextContent), tc.format ≠ "org.matrix.custom.html" →
        formatted_body (.textMsg c tc) = "") ∧
    (∀ e, hasFormattedBody e = false → formatted_body e = "") := by
  refine ⟨?_, ?_, ?_⟩
  · intro c tc h
    simp [formatted_body, htmlFormat, h]
  · intro c tc h
    simp [formatted_body, htmlFormat, h]
  · intro e he
    cases e <;> simp_all [formatted_body, hasFormattedBody]

/-- Witness for C6: the HTML sentinel honors "<b>hi</b>" unmodified, a
different format marker yields "", and an image message yields "". -/
theorem formatted_body_html_sentinel_witness :
    formatted_body (.textMsg core0 ⟨"hi", "m.text", "org.matrix.custom.html",
        "<b>hi</b>", Relations.empty⟩) = "<b>hi</b>" ∧
    formatted_body (.textMsg core0 ⟨"hi", "m.text", "org.matrix.custom.markdown",
        "<b>hi</b>", Relations.empty⟩) = "" ∧
    formatted_body (.imageMsg core0 ⟨"p.png", "m.image", "mxc://u", none,
        ⟨480, 640, 1000, "image/png", "LEHV6", "mxc://t", none⟩,
        Relations.empty⟩) = "" :=
  ⟨(formatted_body_html_sentinel.1 core0 _ rfl).trans rfl,
   formatted_body_html_sentinel.2.1 core0 _ (by decide),
   formatted_body_html_sentinel.2.2 _ rfl⟩

/-- C7: the aspect-ratio helper guards its division — width 0 is replaced by
divisor 1, a non-positive ratio by 1 — so width=0/height=50 yields 50,
width=0/height=0 yields 1, and (modelling the `double` division over `ℚ`)
the result is always a well-defined positive rational, never an infinity or
NaN. -/
theorem eventPropHeight_division_guard :
    eventPropHeight 50 0 = 50 ∧ eventPropHeight 0 0 = 1 ∧
    ∀ h w, 0 < eventPropHeight h w := by
  refine ⟨by norm_num [eventPropHeight], by norm_num [eventPropHeight], ?_⟩
  intro h w
  unfold eventPropHeight
  dsimp only
  split <;> split <;> first | assumption | norm_num

/-- C8: `set_relations` replaces the relations annotation exactly on the
variants whose content shape supports relations, is a complete no-op on
every other variant, and in all cases leaves every other projection of the
event unchanged. -/
theorem set_relations_replace_or_noop (e : TimelineEvents) (r : Relations) :
    (supportsRelations e = true → relations (set_relations e r) = r) ∧
    (supportsRelations e = false → set_relations e r = e) ∧
    body (set_relations e r) = body e ∧
    formatted_body (set_relations e r) = formatted_body e ∧
    msg_type (set_relations e r) = msg_type e ∧
    url (set_relations e r) = url e ∧
    thumbnail_url (set_relations e r) = thumbnail_url e ∧
    file (set_relations e r) = file e ∧
    thumbnail_file (set_relations e r) = thumbnail_file e ∧
    duration (set_relations e r) = duration e ∧
    blurhash (set_relations e r) = blurhash e ∧
    mimetype (set_relations e r) = mimetype e ∧
    filesize (set_relations e r) = filesize e ∧
    filename (set_relations e r) = filename e ∧
    transaction_id (set_relations e r) = transaction_id e ∧
    media_height (set_relations e r) = media_height e ∧
    media_width (set_relations e r) = media_width e ∧
    room_name (set_relations e r) = room_name e ∧
    room_topic (set_relations e r) = room_topic e ∧
    call_type (set_relations e r) = call_type e ∧
    is_state_event (set_relations e r) = is_state_event e ∧
    event_id (set_relations e r) = event_id e ∧
    room_id (set_relations e r) = room_id e ∧
    sender (set_relations e r) = sender e ∧
    (set_relations e r).core.origin_server_ts = e.core.origin_server_ts := by
  cases e <;>
    simp [set_relations, supportsRelations, relations, body, formatted_body,
      msg_type, url, thumbnail_url, file, thumbnail_file, duration, blurhash,
      mimetype, filesize, filename, transaction_id, media_height, media_width,
      room_name, room_topic, call_type, is_state_event, event_id, room_id,
      sender, TimelineEvents.core]

/-- Witness for C8: replacing the relations of a reaction takes effect;
a room-name state event is left untouched. -/
theorem set_relations_replace_or_noop_witness :
    relations (set_relations (.reaction core0 ⟨Relations.empty⟩)
        ⟨[("m.annotation", "$evt0")]⟩) = ⟨[("m.annotation", "$evt0")]⟩ ∧
    set_relations (.roomName core0 "" ⟨"den"⟩) ⟨[("m.annotation", "$evt0")]⟩
      = .roomName core0 "" ⟨"den"⟩ :=
  ⟨(set_relations_replace_or_noop (.reaction core0 ⟨Relations.empty⟩)
      ⟨[("m.annotation", "$evt0")]⟩).1 rfl,
   (set_relations_replace_or_noop (.roomName core0 "" ⟨"den"⟩)
      ⟨[("m.annotation", "$evt0")]⟩).2.1 rfl⟩

/-- C9: decoding the structured value `serialize_event` produces yields an
event agreeing with the original under every projection function of the
accessor catalog. -/
theorem serialize_event_roundtrip (e : TimelineEvents) :
    ∃ e2, decode (serialize_event e) = some e2 ∧
      body e2 = body e ∧ formatted_body e2 = formatted_body e ∧
      msg_type e2 = msg_type e ∧ url e2 = url e ∧
      thumbnail_url e2 = thumbnail_url e ∧ file e2 = file e ∧
      thumbnail_file e2 = thumbnail_file e ∧ duration e2 = duration e ∧
      blurhash e2 = blurhash e ∧ mimetype e2 = mimetype e ∧
      filesize e2 = filesize e ∧ filename e2 = filename e ∧
      relations e2 = relations e ∧ transaction_id e2 = transaction_id e ∧
      media_height e2 = media_height e ∧ media_width e2 = media_width e ∧
      room_name e2 = room_name e ∧ room_topic e2 = room_topic e ∧
      call_type e2 = call_type e ∧ is_state_event e2 = is_state_event e :=
  ⟨e, decode_serialize e, rfl, rfl, rfl, rfl, rfl, rfl, rfl, rfl, rfl, rfl,
   rfl, rfl, rfl, rfl, rfl, rfl, rfl, rfl, rfl, rfl⟩

/-- C10: `formattedBodyWithFallback` returns the formatted body when it is
non-empty, and otherwise the plain body HTML-escaped with every newline
replaced by "<br>". -/
theorem formattedBodyWithFallback_fallback (e : TimelineEvents) :
    (formatted_body e ≠ "" → formattedBodyWithFallback e = formatted_body e) ∧
    (formatted_body e = "" →
      formattedBodyWithFallback e = replaceNewlines (toHtmlEscaped (body e))) := by
  constructor
  · intro h
    simp [formattedBodyWithFallback, String.isEmpty_iff, h]
  · intro h
    simp [formattedBodyWithFallback, String.isEmpty_iff, h]

/-- Witness for C10: an HTML-formatted message passes its formatted body
through; a plain message with body "a<b\nc" is escaped to "a&lt;b<br>c". -/
theorem formattedBodyWithFallback_fallback_witness :
    formattedBodyWithFallback (.textMsg core0 ⟨"hi", "m.text",
        "org.matrix.custom.html", "<b>hi</b>", Relations.empty⟩) = "<b>hi</b>" ∧
    formattedBodyWithFallback (.textMsg core0 ⟨"a<b\nc", "m.text", "", "",
        Relations.empty⟩) = "a&lt;b<br>c" :=
  ⟨((formattedBodyWithFallback_fallback (.textMsg core0 ⟨"hi", "m.text",
        "org.matrix.custom.html", "<b>hi</b>", Relations.empty⟩)).1
      (by decide)).trans rfl,
   ((formattedBodyWithFallback_fallback (.textMsg core0 ⟨"a<b\nc", "m.text",
        "", "", Relations.empty⟩)).2 rfl).trans (by decide)⟩

end accessors

end Nheko
